import Mathlib

/-!
# Library Statistics Collection & Extrapolation Engine — verification

Shallow embedding of `apps/server/src/services/libraryStats.ts` (Tracearr).
JavaScript numbers are modelled as `ℚ`; counts, offsets and timestamps as `ℕ`;
nullable columns and optional JSON fields as `Option`; the relational store as
lists of rows.  `Math.round` is JavaScript rounding (half towards +∞).
-/

namespace Tracearr

/-- JavaScript `Math.round`: rounds half towards positive infinity. -/
def jsRound (q : ℚ) : ℚ := (⌊q + 1/2⌋ : ℚ)

/-- JavaScript truthiness of an optional numeric field (`undefined` and `0` are falsy). -/
def truthyNum (o : Option ℚ) : Bool := decide (o.getD 0 ≠ 0)

/-- JavaScript truthiness of an optional string field (`undefined` and `""` are falsy). -/
def truthyStr (o : Option String) : Bool := decide (o.getD "" ≠ "")

/-! ## Configuration (`LIBRARY_STATS_CONFIG`) -/

def MAX_ITEMS_TO_PROCESS : ℕ := 50000
def SAMPLING_THRESHOLD : ℕ := 3000
def SAMPLE_SIZE : ℕ := 1500
def PAGE_SIZE : ℕ := 2000

/-! ## Sampling planner (shared by `fetchPlexLibraryItems` / `fetchJellyfinLibraryItems`)

`const shouldSample = totalCount > LIBRARY_STATS_CONFIG.SAMPLING_THRESHOLD;`
`const maxItems = Math.min(totalCount, shouldSample ? SAMPLE_SIZE : MAX_ITEMS_TO_PROCESS);`
`const samplingInterval = shouldSample ? Math.floor(totalCount / SAMPLE_SIZE) : 1;`
-/

def shouldSample (totalCount : ℕ) : Bool := decide (SAMPLING_THRESHOLD < totalCount)

def maxItemsToFetch (totalCount : ℕ) : ℕ :=
  min totalCount (if shouldSample totalCount then SAMPLE_SIZE else MAX_ITEMS_TO_PROCESS)

def samplingInterval (totalCount : ℕ) : ℕ :=
  if shouldSample totalCount then totalCount / SAMPLE_SIZE else 1

/-- `const offset = shouldSample ? itemsFetched * samplingInterval : itemsFetched;` -/
def fetchOffset (totalCount itemsFetched : ℕ) : ℕ :=
  if shouldSample totalCount then itemsFetched * samplingInterval totalCount else itemsFetched

/-- `const batchSize = Math.min(pageSize, maxItems - itemsFetched);` -/
def fetchBatchSize (totalCount itemsFetched : ℕ) : ℕ :=
  min PAGE_SIZE (maxItemsToFetch totalCount - itemsFetched)

/-! ## The paged fetch loop

`while (itemsFetched < maxItems) { ... itemsFetched += responseItems.length; }`
modelled for a backend that returns every requested item (full pages), which is
how the loop advances when no error and no short page occurs.  The trace records
each issued request as an `(offset, batchSize)` pair. -/

def fetchRequestsAux (totalCount : ℕ) : ℕ → ℕ → List (ℕ × ℕ)
  | 0, _ => []
  | fuel + 1, itemsFetched =>
    if itemsFetched < maxItemsToFetch totalCount then
      (fetchOffset totalCount itemsFetched, fetchBatchSize totalCount itemsFetched) ::
        fetchRequestsAux totalCount fuel (itemsFetched + fetchBatchSize totalCount itemsFetched)
    else []

def fetchRequests (totalCount : ℕ) : List (ℕ × ℕ) :=
  fetchRequestsAux totalCount (maxItemsToFetch totalCount) 0

/-- The set of library positions a list of page requests asks the backend for:
request `(offset, batchSize)` returns the contiguous run
`offset, offset+1, …, offset+batchSize-1`. -/
def requestedPositions (reqs : List (ℕ × ℕ)) : List ℕ :=
  reqs.flatMap fun r => (List.range r.2).map (r.1 + ·)

/-! ## Claims C1 and C2 -/

/-- **C1.** For every `totalCount`, the sampling plan is: if `totalCount ≤ 3000`
(`SAMPLING_THRESHOLD`), exhaustive mode with stride 1 and
`maxItems = min(totalCount, 50000)`; if `totalCount > 3000`, sampled mode with
`maxItems = min(totalCount, 1500)` and stride `⌊totalCount / 1500⌋`, and every
generated fetch offset is at most `totalCount - 1`. -/
theorem samplingPlan_spec (totalCount : ℕ) :
    (totalCount ≤ 3000 →
      shouldSample totalCount = false ∧
      samplingInterval totalCount = 1 ∧
      maxItemsToFetch totalCount = min totalCount 50000) ∧
    (3000 < totalCount →
      shouldSample totalCount = true ∧
      maxItemsToFetch totalCount = min totalCount 1500 ∧
      samplingInterval totalCount = totalCount / 1500 ∧
      ∀ k < maxItemsToFetch totalCount, fetchOffset totalCount k ≤ totalCount - 1) := by
  constructor
  · intro h
    have hs : shouldSample totalCount = false := by
      simp [shouldSample, SAMPLING_THRESHOLD]; omega
    refine ⟨hs, ?_, ?_⟩
    · simp [samplingInterval, hs]
    · simp [maxItemsToFetch, hs, MAX_ITEMS_TO_PROCESS]
  · intro h
    have hs : shouldSample totalCount = true := by
      simp [shouldSample, SAMPLING_THRESHOLD]; omega
    have hmax : maxItemsToFetch totalCount = 1500 := by
      simp [maxItemsToFetch, hs, SAMPLE_SIZE]; omega
    refine ⟨hs, ?_, ?_, ?_⟩
    · rw [hmax]; omega
    · simp [samplingInterval, hs, SAMPLE_SIZE]
    · intro k hk
      rw [hmax] at hk
      have hq2 : 2 ≤ totalCount / 1500 := by omega
      have hqm : 1500 * (totalCount / 1500) ≤ totalCount := Nat.mul_div_le totalCount 1500
      have hk' : k * (totalCount / 1500) ≤ 1499 * (totalCount / 1500) :=
        Nat.mul_le_mul_right _ (by omega)
      have hoff : fetchOffset totalCount k = k * (totalCount / 1500) := by
        simp [fetchOffset, hs, samplingInterval, SAMPLE_SIZE]
      rw [hoff]
      revert hk'
      generalize k * (totalCount / 1500) = m
      intro hk'
      omega

/-- Witness for C1 at `totalCount = 2000` (exhaustive) and `totalCount = 10000` (sampled). -/
theorem samplingPlan_spec_witness :
    (shouldSample 2000 = false ∧ samplingInterval 2000 = 1 ∧
      maxItemsToFetch 2000 = min 2000 50000) ∧
    (shouldSample 10000 = true ∧ maxItemsToFetch 10000 = min 10000 1500 ∧
      samplingInterval 10000 = 10000 / 1500 ∧
      ∀ k < maxItemsToFetch 10000, fetchOffset 10000 k ≤ 10000 - 1) :=
  ⟨(samplingPlan_spec 2000).1 (by norm_num), (samplingPlan_spec 10000).2 (by norm_num)⟩

/-- **C2 (evaluation at the failing input).** At `totalCount = 10000` the plan is
sampled with stride `6`, yet because `maxItems = 1500` is below the page size
`2000`, the loop issues a single request `(offset 0, limit 1500)`: the positions
actually requested are the contiguous prefix `0 … 1499`, not the strided set
`{0, 6, 12, …}` — e.g. position `1` is requested although it is no multiple of
the stride.  The stride multiplies `itemsFetched`, which is already `1500` after
the first full page, so it never produces a second offset. -/
theorem sampled_fetch_requests_contiguous_run :
    samplingInterval 10000 = 6 ∧
    fetchRequests 10000 = [(0, 1500)] ∧
    requestedPositions (fetchRequests 10000) = List.range 1500 ∧
    1 ∈ requestedPositions (fetchRequests 10000) ∧
    (∀ k : ℕ, k * samplingInterval 10000 ≠ 1) := by
  have hreq : fetchRequests 10000 = [(0, 1500)] := by decide
  have hpos : requestedPositions (fetchRequests 10000) = List.range 1500 := by
    rw [hreq]
    simp [requestedPositions]
  refine ⟨by decide, hreq, hpos, ?_, ?_⟩
  · rw [hpos]
    simp
  · intro k
    have h : samplingInterval 10000 = 6 := by decide
    rw [h]
    omega

/-! ## Plex item shape (fields read by `calculatePlexLibraryStats`) -/

structure PlexStream where
  streamType : Option ℤ := none
  codec : Option String := none
  colorPrimaries : Option String := none
  DOVIProfile : Option ℤ := none
  deriving DecidableEq, Repr

structure PlexPart where
  size : Option ℚ := none
  Stream : Option (List PlexStream) := none
  deriving DecidableEq, Repr

structure PlexMedia where
  bitrate : Option ℚ := none
  Part : Option (List PlexPart) := none
  deriving DecidableEq, Repr

structure PlexLibraryItem where
  duration : Option ℚ := none
  grandparentRatingKey : Option String := none
  parentRatingKey : Option String := none
  Media : Option (List PlexMedia) := none
  deriving DecidableEq, Repr

/-- `stream.codec?.toLowerCase().includes('hevc')` (falsy when `codec` is absent). -/
def plexCodecHevc : Option String → Bool
  | none => false
  | some c => decide ("hevc".toList <:+: c.toLower.toList)

/-- The HDR heuristic applied to one Plex stream:
`streamType === 1 && (colorPrimaries === 'bt2020' || DOVIProfile !== undefined || codec includes 'hevc')`. -/
def plexStreamIsHdr (s : PlexStream) : Bool :=
  s.streamType == some 1 &&
    (s.colorPrimaries == some "bt2020" || !(s.DOVIProfile == none) || plexCodecHevc s.codec)

/-- Accumulator of the `for (const item of items)` loop of `calculatePlexLibraryStats`. -/
structure PlexAgg where
  totalSizeBytes : ℚ := 0
  totalDurationMs : ℚ := 0
  hdrItemCount : ℕ := 0
  totalBitrate : ℚ := 0
  itemsWithBitrate : ℕ := 0
  totalEpisodes : ℕ := 0
  uniqueShows : Finset String := ∅
  uniqueSeasons : Finset String := ∅
  deriving DecidableEq

/-- One iteration of the aggregation loop of `calculatePlexLibraryStats`. -/
def plexFoldItem (libraryType : String) (acc : PlexAgg) (item : PlexLibraryItem) : PlexAgg :=
  let acc :=
    if libraryType = "show" then
      { acc with
        totalEpisodes := acc.totalEpisodes + 1
        uniqueShows :=
          if truthyStr item.grandparentRatingKey then
            insert (item.grandparentRatingKey.getD "") acc.uniqueShows
          else acc.uniqueShows
        uniqueSeasons :=
          if truthyStr item.parentRatingKey then
            insert (item.parentRatingKey.getD "") acc.uniqueSeasons
          else acc.uniqueSeasons }
    else acc
  match item.Media.bind List.head? with
  | none => acc
  | some media =>
    let part := media.Part.bind List.head?
    let acc :=
      match part with
      | some p =>
        if truthyNum p.size then
          { acc with totalSizeBytes := acc.totalSizeBytes + p.size.getD 0 }
        else acc
      | none => acc
    let acc :=
      if truthyNum item.duration then
        { acc with totalDurationMs := acc.totalDurationMs + item.duration.getD 0 }
      else acc
    let acc :=
      if truthyNum media.bitrate then
        { acc with
          totalBitrate := acc.totalBitrate + media.bitrate.getD 0
          itemsWithBitrate := acc.itemsWithBitrate + 1 }
      else acc
    match part with
    | some p =>
      match p.Stream with
      | some streams =>
        if streams.any plexStreamIsHdr then
          { acc with hdrItemCount := acc.hdrItemCount + 1 }
        else acc
      | none => acc
    | none => acc

def plexAggregate (items : List PlexLibraryItem) (libraryType : String) : PlexAgg :=
  items.foldl (plexFoldItem libraryType) {}

/-! ## `LibraryItemStats` and the Plex calculator -/

structure LibraryItemStats where
  totalItems : ℚ
  totalEpisodes : Option ℚ
  totalSeasons : Option ℚ
  totalShows : Option ℚ
  totalSizeBytes : ℚ
  totalDurationMs : ℚ
  avgFileSizeBytes : ℚ
  avgDurationMs : ℚ
  avgBitrateKbps : ℚ
  hdrItemCount : ℚ
  deriving DecidableEq, Repr

/-- `calculatePlexLibraryStats(items, libraryType, actualTotalCount, sampled)`. -/
def calculatePlexLibraryStats (items : List PlexLibraryItem) (libraryType : String)
    (actualTotalCount : ℕ) (sampled : Bool) : LibraryItemStats :=
  let acc := plexAggregate items libraryType
  let totalShows : ℕ := if libraryType = "show" then acc.uniqueShows.card else 0
  let totalSeasons : ℕ := if libraryType = "show" then acc.uniqueSeasons.card else 0
  -- `if (sampled && items.length > 0)`
  let doExtrapolate : Bool := sampled && decide (0 < items.length)
  let samplingRatio : ℚ := (actualTotalCount : ℚ) / (items.length : ℚ)
  let extrapolatedTotalSize :=
    if doExtrapolate then jsRound (acc.totalSizeBytes * samplingRatio) else acc.totalSizeBytes
  let extrapolatedTotalDuration :=
    if doExtrapolate then jsRound (acc.totalDurationMs * samplingRatio) else acc.totalDurationMs
  let extrapolatedHdrCount :=
    if doExtrapolate then jsRound ((acc.hdrItemCount : ℚ) * samplingRatio)
    else (acc.hdrItemCount : ℚ)
  let extrapolatedEpisodes : ℚ :=
    if doExtrapolate ∧ libraryType = "show" then (actualTotalCount : ℚ)
    else (acc.totalEpisodes : ℚ)
  let extrapolatedShows : ℚ :=
    if doExtrapolate ∧ libraryType = "show" then jsRound ((totalShows : ℚ) * samplingRatio)
    else (totalShows : ℚ)
  let extrapolatedSeasons : ℚ :=
    if doExtrapolate ∧ libraryType = "show" then jsRound ((totalSeasons : ℚ) * samplingRatio)
    else (totalSeasons : ℚ)
  let finalTotalItems : ℚ :=
    if libraryType = "show" then extrapolatedShows else (actualTotalCount : ℚ)
  { totalItems := finalTotalItems
    totalEpisodes := if libraryType = "show" then some extrapolatedEpisodes else none
    totalSeasons := if libraryType = "show" then some extrapolatedSeasons else none
    totalShows := if libraryType = "show" then some extrapolatedShows else none
    totalSizeBytes := extrapolatedTotalSize
    totalDurationMs := extrapolatedTotalDuration
    avgFileSizeBytes :=
      if 0 < finalTotalItems then jsRound (extrapolatedTotalSize / finalTotalItems) else 0
    avgDurationMs :=
      if 0 < finalTotalItems then jsRound (extrapolatedTotalDuration / finalTotalItems) else 0
    avgBitrateKbps :=
      if 0 < acc.itemsWithBitrate then jsRound (acc.totalBitrate / (acc.itemsWithBitrate : ℚ))
      else 0
    hdrItemCount := extrapolatedHdrCount }

/-- Division that reports an error (`none`) instead of silently dividing by zero. -/
def divChecked (a b : ℚ) : Option ℚ := if b = 0 then none else some (a / b)

/-- `calculatePlexLibraryStats` with every division checked: evaluates to `none`
as soon as a division by zero would occur.  The sampling ratio is only computed
in the extrapolation branch, exactly as in the source. -/
def calculatePlexLibraryStatsChecked (items : List PlexLibraryItem) (libraryType : String)
    (actualTotalCount : ℕ) (sampled : Bool) : Option LibraryItemStats :=
  let acc := plexAggregate items libraryType
  let totalShows : ℕ := if libraryType = "show" then acc.uniqueShows.card else 0
  let totalSeasons : ℕ := if libraryType = "show" then acc.uniqueSeasons.card else 0
  let doExtrapolate : Bool := sampled && decide (0 < items.length)
  (if doExtrapolate then divChecked (actualTotalCount : ℚ) (items.length : ℚ)
   else some 0).bind fun samplingRatio =>
  let extrapolatedTotalSize :=
    if doExtrapolate then jsRound (acc.totalSizeBytes * samplingRatio) else acc.totalSizeBytes
  let extrapolatedTotalDuration :=
    if doExtrapolate then jsRound (acc.totalDurationMs * samplingRatio) else acc.totalDurationMs
  let extrapolatedHdrCount :=
    if doExtrapolate then jsRound ((acc.hdrItemCount : ℚ) * samplingRatio)
    else (acc.hdrItemCount : ℚ)
  let extrapolatedEpisodes : ℚ :=
    if doExtrapolate ∧ libraryType = "show" then (actualTotalCount : ℚ)
    else (acc.totalEpisodes : ℚ)
  let extrapolatedShows : ℚ :=
    if doExtrapolate ∧ libraryType = "show" then jsRound ((totalShows : ℚ) * samplingRatio)
    else (totalShows : ℚ)
  let extrapolatedSeasons : ℚ :=
    if doExtrapolate ∧ libraryType = "show" then jsRound ((totalSeasons : ℚ) * samplingRatio)
    else (totalSeasons : ℚ)
  let finalTotalItems : ℚ :=
    if libraryType = "show" then extrapolatedShows else (actualTotalCount : ℚ)
  (if 0 < finalTotalItems then divChecked extrapolatedTotalSize finalTotalItems
   else some 0).bind fun avgSizeRaw =>
  (if 0 < finalTotalItems then divChecked extrapolatedTotalDuration finalTotalItems
   else some 0).bind fun avgDurationRaw =>
  (if 0 < acc.itemsWithBitrate then divChecked acc.totalBitrate (acc.itemsWithBitrate : ℚ)
   else some 0).bind fun avgBitrateRaw =>
  some
    { totalItems := finalTotalItems
      totalEpisodes := if libraryType = "show" then some extrapolatedEpisodes else none
      totalSeasons := if libraryType = "show" then some extrapolatedSeasons else none
      totalShows := if libraryType = "show" then some extrapolatedShows else none
      totalSizeBytes := extrapolatedTotalSize
      totalDurationMs := extrapolatedTotalDuration
      avgFileSizeBytes := if 0 < finalTotalItems then jsRound avgSizeRaw else 0
      avgDurationMs := if 0 < finalTotalItems then jsRound avgDurationRaw else 0
      avgBitrateKbps := if 0 < acc.itemsWithBitrate then jsRound avgBitrateRaw else 0
      hdrItemCount := extrapolatedHdrCount }

/-! ## Jellyfin/Emby item shape (fields read by `calculateJellyfinLibraryStats`) -/

structure JellyfinMediaStream where
  Type' : Option String := none
  VideoRange : Option String := none
  VideoRangeType : Option String := none
  deriving DecidableEq, Repr

structure JellyfinMediaSource where
  Size : Option ℚ := none
  Bitrate : Option ℚ := none
  MediaStreams : Option (List JellyfinMediaStream) := none
  deriving DecidableEq, Repr

structure JellyfinLibraryItem where
  RunTimeTicks : Option ℚ := none
  SeriesId : Option String := none
  SeasonId : Option String := none
  MediaSources : Option (List JellyfinMediaSource) := none
  deriving DecidableEq, Repr

/-- The Jellyfin/Emby HDR check on the first video stream:
`VideoRange === 'HDR' || VideoRangeType ∈ {HDR10, HDR10Plus, DolbyVision}`. -/
def jellyfinStreamIsHdr (s : JellyfinMediaStream) : Bool :=
  s.VideoRange == some "HDR" || s.VideoRangeType == some "HDR10" ||
    s.VideoRangeType == some "HDR10Plus" || s.VideoRangeType == some "DolbyVision"

/-- Accumulator of the `for (const item of items)` loop of `calculateJellyfinLibraryStats`. -/
structure JellyfinAgg where
  totalSizeBytes : ℚ := 0
  totalDurationMs : ℚ := 0
  hdrItemCount : ℕ := 0
  totalBitrate : ℚ := 0
  itemsWithBitrate : ℕ := 0
  totalEpisodes : ℕ := 0
  uniqueShows : Finset String := ∅
  uniqueSeasons : Finset String := ∅
  deriving DecidableEq

/-- One iteration of the aggregation loop of `calculateJellyfinLibraryStats`. -/
def jellyfinFoldItem (libraryType : String) (acc : JellyfinAgg) (item : JellyfinLibraryItem) :
    JellyfinAgg :=
  let acc :=
    if libraryType = "tvshows" then
      { acc with
        totalEpisodes := acc.totalEpisodes + 1
        uniqueShows :=
          if truthyStr item.SeriesId then insert (item.SeriesId.getD "") acc.uniqueShows
          else acc.uniqueShows
        uniqueSeasons :=
          if truthyStr item.SeasonId then insert (item.SeasonId.getD "") acc.uniqueSeasons
          else acc.uniqueSeasons }
    else acc
  match item.MediaSources.bind List.head? with
  | none => acc
  | some mediaSource =>
    let acc :=
      if truthyNum mediaSource.Size then
        { acc with totalSizeBytes := acc.totalSizeBytes + mediaSource.Size.getD 0 }
      else acc
    -- `RunTimeTicks` is in 100ns units: `Math.round(ticks / 10000)` milliseconds
    let acc :=
      if truthyNum item.RunTimeTicks then
        { acc with totalDurationMs := acc.totalDurationMs + jsRound (item.RunTimeTicks.getD 0 / 10000) }
      else acc
    -- `Math.round(Bitrate / 1000)` converts to kbps
    let acc :=
      if truthyNum mediaSource.Bitrate then
        { acc with
          totalBitrate := acc.totalBitrate + jsRound (mediaSource.Bitrate.getD 0 / 1000)
          itemsWithBitrate := acc.itemsWithBitrate + 1 }
      else acc
    match mediaSource.MediaStreams with
    | some streams =>
      match streams.find? (fun s => s.Type' == some "Video") with
      | some videoStream =>
        if jellyfinStreamIsHdr videoStream then
          { acc with hdrItemCount := acc.hdrItemCount + 1 }
        else acc
      | none => acc
    | none => acc

def jellyfinAggregate (items : List JellyfinLibraryItem) (libraryType : String) : JellyfinAgg :=
  items.foldl (jellyfinFoldItem libraryType) {}

/-- `calculateJellyfinLibraryStats(items, libraryType, actualTotalCount, sampled)`. -/
def calculateJellyfinLibraryStats (items : List JellyfinLibraryItem) (libraryType : String)
    (actualTotalCount : ℕ) (sampled : Bool) : LibraryItemStats :=
  let acc := jellyfinAggregate items libraryType
  let totalShows : ℕ := if libraryType = "tvshows" then acc.uniqueShows.card else 0
  let totalSeasons : ℕ := if libraryType = "tvshows" then acc.uniqueSeasons.card else 0
  let isTvLibrary := libraryType = "tvshows"
  let doExtrapolate : Bool := sampled && decide (0 < items.length)
  let samplingRatio : ℚ := (actualTotalCount : ℚ) / (items.length : ℚ)
  let extrapolatedTotalSize :=
    if doExtrapolate then jsRound (acc.totalSizeBytes * samplingRatio) else acc.totalSizeBytes
  let extrapolatedTotalDuration :=
    if doExtrapolate then jsRound (acc.totalDurationMs * samplingRatio) else acc.totalDurationMs
  let extrapolatedHdrCount :=
    if doExtrapolate then jsRound ((acc.hdrItemCount : ℚ) * samplingRatio)
    else (acc.hdrItemCount : ℚ)
  let extrapolatedEpisodes : ℚ :=
    if doExtrapolate ∧ isTvLibrary then (actualTotalCount : ℚ) else (acc.totalEpisodes : ℚ)
  let extrapolatedShows : ℚ :=
    if doExtrapolate ∧ isTvLibrary then jsRound ((totalShows : ℚ) * samplingRatio)
    else (totalShows : ℚ)
  let extrapolatedSeasons : ℚ :=
    if doExtrapolate ∧ isTvLibrary then jsRound ((totalSeasons : ℚ) * samplingRatio)
    else (totalSeasons : ℚ)
  let finalTotalItems : ℚ := if isTvLibrary then extrapolatedShows else (actualTotalCount : ℚ)
  { totalItems := finalTotalItems
    totalEpisodes := if isTvLibrary then some extrapolatedEpisodes else none
    totalSeasons := if isTvLibrary then some extrapolatedSeasons else none
    totalShows := if isTvLibrary then some extrapolatedShows else none
    totalSizeBytes := extrapolatedTotalSize
    totalDurationMs := extrapolatedTotalDuration
    avgFileSizeBytes :=
      if 0 < finalTotalItems then jsRound (extrapolatedTotalSize / finalTotalItems) else 0
    avgDurationMs :=
      if 0 < finalTotalItems then jsRound (extrapolatedTotalDuration / finalTotalItems) else 0
    avgBitrateKbps :=
      if 0 < acc.itemsWithBitrate then jsRound (acc.totalBitrate / (acc.itemsWithBitrate : ℚ))
      else 0
    hdrItemCount := extrapolatedHdrCount }

/-! ## Persistence layer

`library_statistics` has a UNIQUE constraint on `(server_id, library_id)`;
`library_snapshots` on `(server_id, library_id, snapshot_date)`.  Tables are
modelled as row lists, dates and timestamps as day/instant numbers. -/

structure StatsRow where
  serverId : String
  libraryId : String
  libraryName : String
  libraryType : String
  totalItems : ℚ
  totalEpisodes : Option ℚ
  totalSeasons : Option ℚ
  totalShows : Option ℚ
  totalSizeBytes : ℚ
  totalDurationMs : ℚ
  avgFileSizeBytes : Option ℚ
  avgDurationMs : Option ℚ
  avgBitrateKbps : Option ℚ
  hdrItemCount : Option ℚ
  lastUpdatedAt : ℕ
  deriving DecidableEq, Repr

structure SnapshotRow where
  serverId : String
  libraryId : String
  libraryName : String
  libraryType : String
  snapshotDate : ℕ
  totalItems : ℚ
  totalSizeBytes : ℚ
  totalDurationMs : ℚ
  deriving DecidableEq, Repr

structure DB where
  stats : List StatsRow
  snapshots : List SnapshotRow
  deriving DecidableEq, Repr

/-! ### `updateServerLibraryStats` (upsert + batched `lastUpdatedAt` bump) -/

def statsKeyMatches (r : StatsRow) (sid lid : String) : Bool :=
  r.serverId == sid && r.libraryId == lid

/-- The `set` clause of `.onConflictDoUpdate` — note it does not touch
`lastUpdatedAt`. -/
def applyStatsFields (r : StatsRow) (name ltype : String) (st : LibraryItemStats) : StatsRow :=
  { r with
    libraryName := name
    libraryType := ltype
    totalItems := st.totalItems
    totalEpisodes := st.totalEpisodes
    totalSeasons := st.totalSeasons
    totalShows := st.totalShows
    totalSizeBytes := st.totalSizeBytes
    totalDurationMs := st.totalDurationMs
    avgFileSizeBytes := some st.avgFileSizeBytes
    avgDurationMs := some st.avgDurationMs
    avgBitrateKbps := some st.avgBitrateKbps
    hdrItemCount := some st.hdrItemCount }

/-- The `values` clause of the insert (fresh row, `lastUpdatedAt: new Date()`). -/
def newStatsRow (sid lid name ltype : String) (st : LibraryItemStats) (now : ℕ) : StatsRow :=
  { serverId := sid
    libraryId := lid
    libraryName := name
    libraryType := ltype
    totalItems := st.totalItems
    totalEpisodes := st.totalEpisodes
    totalSeasons := st.totalSeasons
    totalShows := st.totalShows
    totalSizeBytes := st.totalSizeBytes
    totalDurationMs := st.totalDurationMs
    avgFileSizeBytes := some st.avgFileSizeBytes
    avgDurationMs := some st.avgDurationMs
    avgBitrateKbps := some st.avgBitrateKbps
    hdrItemCount := some st.hdrItemCount
    lastUpdatedAt := now }

/-- `db.insert(libraryStatistics).values(...).onConflictDoUpdate({target: [serverId, libraryId], set: ...})`. -/
def upsertLibraryStatistics (rows : List StatsRow) (sid lid name ltype : String)
    (st : LibraryItemStats) (now : ℕ) : List StatsRow :=
  if rows.any (statsKeyMatches · sid lid) then
    rows.map fun r => if statsKeyMatches r sid lid then applyStatsFields r name ltype st else r
  else rows ++ [newStatsRow sid lid name ltype st now]

/-- One library to process in a server run.  `result` is the outcome of
fetch + aggregate for that library; `none` models an exception thrown while
processing it (caught by the per-library `try/catch`). -/
structure LibraryRun where
  id : String
  name : String
  type : String
  result : Option LibraryItemStats
  deriving DecidableEq, Repr

/-- Body of the `for (const library of filteredLibraries)` loop: on success the
library is upserted and pushed onto `processedLibraryIds`; on an exception the
accumulated state is left untouched and the loop continues. -/
def processLibraryStep (sid : String) (now : ℕ) (acc : List StatsRow × List String)
    (lib : LibraryRun) : List StatsRow × List String :=
  match lib.result with
  | some st => (upsertLibraryStatistics acc.1 sid lib.id lib.name lib.type st now, acc.2 ++ [lib.id])
  | none => acc

/-- The final batched update:
`set({lastUpdatedAt}).where(eq(serverId) and inArray(libraryId, processedLibraryIds))`. -/
def bumpRow (sid : String) (procs : List String) (bumpTime : ℕ) (r : StatsRow) : StatsRow :=
  if r.serverId == sid && procs.contains r.libraryId then { r with lastUpdatedAt := bumpTime }
  else r

/-- `updateServerLibraryStats`: process every library, then bump `lastUpdatedAt`
once for all successfully processed libraries. -/
def updateServerLibraryStatsModel (db : DB) (sid : String) (libs : List LibraryRun)
    (now bumpTime : ℕ) : DB :=
  let p := libs.foldl (processLibraryStep sid now) (db.stats, [])
  let rows := if p.2.isEmpty then p.1 else p.1.map (bumpRow sid p.2 bumpTime)
  { db with stats := rows }

/-- The `processedLibraryIds` accumulated by a server run. -/
def processedLibraryIds (db : DB) (sid : String) (libs : List LibraryRun) (now : ℕ) :
    List String :=
  (libs.foldl (processLibraryStep sid now) (db.stats, [])).2

/-! ### `createDailySnapshot` (insert-or-ignore) -/

def snapKeyMatches (a b : SnapshotRow) : Bool :=
  a.serverId == b.serverId && a.libraryId == b.libraryId && a.snapshotDate == b.snapshotDate

def hasSnapKey (rows : List SnapshotRow) (r : SnapshotRow) : Bool :=
  rows.any (snapKeyMatches · r)

/-- `db.insert(librarySnapshots).values(...).onConflictDoNothing()`. -/
def insertSnapshotOrIgnore (rows : List SnapshotRow) (r : SnapshotRow) : List SnapshotRow :=
  if hasSnapKey rows r then rows else rows ++ [r]

/-- The snapshot row copied from one current-statistics row (only items, size, duration). -/
def snapshotOfStat (stat : StatsRow) (today : ℕ) : SnapshotRow :=
  { serverId := stat.serverId
    libraryId := stat.libraryId
    libraryName := stat.libraryName
    libraryType := stat.libraryType
    snapshotDate := today
    totalItems := stat.totalItems
    totalSizeBytes := stat.totalSizeBytes
    totalDurationMs := stat.totalDurationMs }

/-- `createDailySnapshot(serverId)`: for every current-statistics row of the
server, insert-or-ignore a snapshot for `today`. -/
def createDailySnapshotModel (db : DB) (sid : String) (today : ℕ) : DB :=
  { db with
    snapshots :=
      ((db.stats.filter fun s => s.serverId == sid).map (snapshotOfStat · today)).foldl
        insertSnapshotOrIgnore db.snapshots }

/-! ### `getLibraryStatistics` (reader) -/

structure MediaLibraryFileStats where
  avgFileSize : ℚ
  avgDuration : ℚ
  avgBitrate : ℚ
  hdrPercentage : ℚ
  deriving DecidableEq, Repr

structure MediaLibraryStats where
  id : String
  serverId : String
  name : String
  type : String
  size : ℚ
  itemCount : ℚ
  episodeCount : Option ℚ
  seasonCount : Option ℚ
  showCount : Option ℚ
  hours : ℚ
  fileStats : MediaLibraryFileStats
  lastUpdatedAt : ℕ
  deriving DecidableEq, Repr

structure MediaLibrarySnapshot where
  libraryId : String
  libraryName : String
  libraryType : String
  size : ℚ
  items : ℚ
  durationMs : ℚ
  deriving DecidableEq, Repr

structure MediaLibraryHistoricalDataPoint where
  date : ℕ
  libraries : List MediaLibrarySnapshot
  deriving DecidableEq, Repr

structure CurrentLibraryStats where
  totalSize : ℚ
  totalItems : ℚ
  totalHours : ℚ
  lastUpdated : Option ℕ
  libraries : List MediaLibraryStats
  deriving DecidableEq, Repr

structure MediaLibraryStatsResponse where
  current : CurrentLibraryStats
  historical : List MediaLibraryHistoricalDataPoint
  deriving DecidableEq, Repr

/-- The per-row mapping inside `currentStats.map((stat) => ...)`, including
`hdrPercentage = hdrItemCount / totalItems * 100` guarded only against
`totalItems = 0` — never capped at 100. -/
def mediaLibraryStatsOfRow (stat : StatsRow) : MediaLibraryStats :=
  { id := stat.libraryId
    serverId := stat.serverId
    name := stat.libraryName
    type := stat.libraryType
    size := stat.totalSizeBytes
    itemCount := stat.totalItems
    episodeCount := stat.totalEpisodes
    seasonCount := stat.totalSeasons
    showCount := stat.totalShows
    hours := stat.totalDurationMs / (1000 * 60 * 60)
    fileStats :=
      { avgFileSize := stat.avgFileSizeBytes.getD 0
        avgDuration := stat.avgDurationMs.getD 0
        avgBitrate := stat.avgBitrateKbps.getD 0
        hdrPercentage :=
          if 0 < stat.totalItems then stat.hdrItemCount.getD 0 / stat.totalItems * 100 else 0 }
    lastUpdatedAt := stat.lastUpdatedAt }

/-- Insertion sort used to model the query `ORDER BY` and the final
`.sort((a, b) => a.date.localeCompare(b.date))`. -/
def sortedInsertBy (le : α → α → Bool) (a : α) : List α → List α
  | [] => [a]
  | b :: t => if le a b then a :: b :: t else b :: sortedInsertBy le a t

def sortListBy (le : α → α → Bool) (l : List α) : List α :=
  l.foldr (sortedInsertBy le) []

/-- The `Map`-based grouping of snapshots by date, preserving first-seen
insertion order of dates and appending within a date group. -/
def groupSnapshotsByDate (snaps : List SnapshotRow) :
    List (ℕ × List MediaLibrarySnapshot) :=
  snaps.foldl
    (fun groups snap =>
      let entry : MediaLibrarySnapshot :=
        { libraryId := snap.libraryId
          libraryName := snap.libraryName
          libraryType := snap.libraryType
          size := snap.totalSizeBytes
          items := snap.totalItems
          durationMs := snap.totalDurationMs }
      if groups.any (fun g => g.1 == snap.snapshotDate) then
        groups.map fun g => if g.1 == snap.snapshotDate then (g.1, g.2 ++ [entry]) else g
      else groups ++ [(snap.snapshotDate, [entry])])
    []

/-- `getLibraryStatistics(serverId?, daysOfHistory = 90)`. -/
def getLibraryStatisticsModel (db : DB) (serverId : Option String) (daysOfHistory : ℕ)
    (today : ℕ) : MediaLibraryStatsResponse :=
  let currentStats := db.stats.filter fun s =>
    match serverId with
    | some sid => s.serverId == sid
    | none => true
  let totalSize := currentStats.foldl (fun acc s => acc + s.totalSizeBytes) 0
  let totalItems := currentStats.foldl (fun acc s => acc + s.totalItems) 0
  let totalDurationMs := currentStats.foldl (fun acc s => acc + s.totalDurationMs) 0
  let lastUpdated := currentStats.foldl
    (fun acc s =>
      match acc with
      | none => some s.lastUpdatedAt
      | some m => if m < s.lastUpdatedAt then some s.lastUpdatedAt else some m)
    none
  let libraries := currentStats.map mediaLibraryStatsOfRow
  let historyStartDate := today - daysOfHistory
  let snaps := db.snapshots.filter fun s =>
    (match serverId with
     | some sid => s.serverId == sid
     | none => true) && historyStartDate ≤ s.snapshotDate
  let snapsOrdered := sortListBy (fun a b => b.snapshotDate ≤ a.snapshotDate) snaps
  let historical :=
    sortListBy (fun a b => a.date ≤ b.date)
      ((groupSnapshotsByDate snapsOrdered).map fun g =>
        ({ date := g.1, libraries := g.2 } : MediaLibraryHistoricalDataPoint))
  { current :=
      { totalSize := totalSize
        totalItems := totalItems
        totalHours := totalDurationMs / (1000 * 60 * 60)
        lastUpdated := lastUpdated
        libraries := libraries }
    historical := historical }

/-! ## Claims C3, C4, C5 -/

lemma divChecked_of_pos {a b : ℚ} (h : 0 < b) : divChecked a b = some (a / b) := by
  simp [divChecked, ne_of_gt h]

lemma jsRound_zero : jsRound 0 = 0 := by
  norm_num [jsRound]

lemma guardedBind_lt {α : Type} {b : ℚ} (a : ℚ) (f : ℚ → Option α) :
    (if 0 < b then divChecked a b else some 0).bind f
      = f (if 0 < b then a / b else 0) := by
  by_cases hb : 0 < b
  · simp [hb, divChecked_of_pos hb]
  · simp [hb]

lemma guardedBind_nat {α : Type} {n : ℕ} (a : ℚ) (f : ℚ → Option α) :
    (if 0 < n then divChecked a (n : ℚ) else some 0).bind f
      = f (if 0 < n then a / (n : ℚ) else 0) := by
  by_cases hb : 0 < n
  · have hb' : (0 : ℚ) < (n : ℚ) := by exact_mod_cast hb
    simp [hb, divChecked_of_pos hb']
  · simp [hb]

lemma ite_jsRound_collapse {c : Prop} [Decidable c] (a b : ℚ) :
    (if c then jsRound (if c then a / b else 0) else 0) = (if c then jsRound (a / b) else 0) := by
  by_cases hc : c <;> simp [hc]

/-- **C3.** For every sampled collection with `itemsFetched > 0`, the ratio
`actualTotalCount / itemsFetched` is applied multiplicatively to total size,
total duration, HDR count, and (show-like libraries) show and season count; the
episode count is not extrapolated but set to `actualTotalCount`; `totalItems`
for show-like libraries equals the extrapolated show count; and the averages are
recomputed as `round(extrapolatedTotal / finalTotalItems)`, `0` when
`finalTotalItems` is `0`.  Stated for both the Plex and the Jellyfin/Emby
calculator. -/
theorem extrapolation_spec (pitems : List PlexLibraryItem) (jitems : List JellyfinLibraryItem)
    (libraryType : String) (actualTotalCount : ℕ) :
    (0 < pitems.length →
      calculatePlexLibraryStats pitems libraryType actualTotalCount true =
        { totalItems :=
            if libraryType = "show" then
              jsRound (((plexAggregate pitems libraryType).uniqueShows.card : ℚ) *
                ((actualTotalCount : ℚ) / (pitems.length : ℚ)))
            else (actualTotalCount : ℚ)
          totalEpisodes := if libraryType = "show" then some (actualTotalCount : ℚ) else none
          totalSeasons :=
            if libraryType = "show" then
              some (jsRound (((plexAggregate pitems libraryType).uniqueSeasons.card : ℚ) *
                ((actualTotalCount : ℚ) / (pitems.length : ℚ))))
            else none
          totalShows :=
            if libraryType = "show" then
              some (jsRound (((plexAggregate pitems libraryType).uniqueShows.card : ℚ) *
                ((actualTotalCount : ℚ) / (pitems.length : ℚ))))
            else none
          totalSizeBytes := jsRound ((plexAggregate pitems libraryType).totalSizeBytes *
            ((actualTotalCount : ℚ) / (pitems.length : ℚ)))
          totalDurationMs := jsRound ((plexAggregate pitems libraryType).totalDurationMs *
            ((actualTotalCount : ℚ) / (pitems.length : ℚ)))
          avgFileSizeBytes :=
            if 0 < (calculatePlexLibraryStats pitems libraryType actualTotalCount true).totalItems
            then jsRound
              ((calculatePlexLibraryStats pitems libraryType actualTotalCount true).totalSizeBytes /
                (calculatePlexLibraryStats pitems libraryType actualTotalCount true).totalItems)
            else 0
          avgDurationMs :=
            if 0 < (calculatePlexLibraryStats pitems libraryType actualTotalCount true).totalItems
            then jsRound
              ((calculatePlexLibraryStats pitems libraryType actualTotalCount true).totalDurationMs /
                (calculatePlexLibraryStats pitems libraryType actualTotalCount true).totalItems)
            else 0
          avgBitrateKbps :=
            if 0 < (plexAggregate pitems libraryType).itemsWithBitrate then
              jsRound ((plexAggregate pitems libraryType).totalBitrate /
                ((plexAggregate pitems libraryType).itemsWithBitrate : ℚ))
            else 0
          hdrItemCount := jsRound (((plexAggregate pitems libraryType).hdrItemCount : ℚ) *
            ((actualTotalCount : ℚ) / (pitems.length : ℚ))) }) ∧
    (0 < jitems.length →
      calculateJellyfinLibraryStats jitems libraryType actualTotalCount true =
        { totalItems :=
            if libraryType = "tvshows" then
              jsRound (((jellyfinAggregate jitems libraryType).uniqueShows.card : ℚ) *
                ((actualTotalCount : ℚ) / (jitems.length : ℚ)))
            else (actualTotalCount : ℚ)
          totalEpisodes := if libraryType = "tvshows" then some (actualTotalCount : ℚ) else none
          totalSeasons :=
            if libraryType = "tvshows" then
              some (jsRound (((jellyfinAggregate jitems libraryType).uniqueSeasons.card : ℚ) *
                ((actualTotalCount : ℚ) / (jitems.length : ℚ))))
            else none
          totalShows :=
            if libraryType = "tvshows" then
              some (jsRound (((jellyfinAggregate jitems libraryType).uniqueShows.card : ℚ) *
                ((actualTotalCount : ℚ) / (jitems.length : ℚ))))
            else none
          totalSizeBytes := jsRound ((jellyfinAggregate jitems libraryType).totalSizeBytes *
            ((actualTotalCount : ℚ) / (jitems.length : ℚ)))
          totalDurationMs := jsRound ((jellyfinAggregate jitems libraryType).totalDurationMs *
            ((actualTotalCount : ℚ) / (jitems.length : ℚ)))
          avgFileSizeBytes :=
            if 0 < (calculateJellyfinLibraryStats jitems libraryType actualTotalCount true).totalItems
            then jsRound
              ((calculateJellyfinLibraryStats jitems libraryType actualTotalCount true).totalSizeBytes /
                (calculateJellyfinLibraryStats jitems libraryType actualTotalCount true).totalItems)
            else 0
          avgDurationMs :=
            if 0 < (calculateJellyfinLibraryStats jitems libraryType actualTotalCount true).totalItems
            then jsRound
              ((calculateJellyfinLibraryStats jitems libraryType actualTotalCount true).totalDurationMs /
                (calculateJellyfinLibraryStats jitems libraryType actualTotalCount true).totalItems)
            else 0
          avgBitrateKbps :=
            if 0 < (jellyfinAggregate jitems libraryType).itemsWithBitrate then
              jsRound ((jellyfinAggregate jitems libraryType).totalBitrate /
                ((jellyfinAggregate jitems libraryType).itemsWithBitrate : ℚ))
            else 0
          hdrItemCount := jsRound (((jellyfinAggregate jitems libraryType).hdrItemCount : ℚ) *
            ((actualTotalCount : ℚ) / (jitems.length : ℚ))) }) := by
  constructor
  · intro h
    have hlen : decide (0 < pitems.length) = true := by simpa using h
    by_cases hshow : libraryType = "show" <;>
      simp [calculatePlexLibraryStats, hlen, hshow]
  · intro h
    have hlen : decide (0 < jitems.length) = true := by simpa using h
    by_cases hshow : libraryType = "tvshows" <;>
      simp [calculateJellyfinLibraryStats, hlen, hshow]

/-- Witness for C3: one Plex item and one Jellyfin item, sampled with
`actualTotalCount = 4000`. -/
theorem extrapolation_spec_witness :
    0 < ([({} : PlexLibraryItem)]).length ∧
    calculatePlexLibraryStats [({} : PlexLibraryItem)] "movie" 4000 true =
      { totalItems := (4000 : ℚ)
        totalEpisodes := none
        totalSeasons := none
        totalShows := none
        totalSizeBytes := jsRound ((plexAggregate [({} : PlexLibraryItem)] "movie").totalSizeBytes *
          ((4000 : ℚ) / (([({} : PlexLibraryItem)]).length : ℚ)))
        totalDurationMs := jsRound ((plexAggregate [({} : PlexLibraryItem)] "movie").totalDurationMs *
          ((4000 : ℚ) / (([({} : PlexLibraryItem)]).length : ℚ)))
        avgFileSizeBytes :=
          if 0 < (calculatePlexLibraryStats [({} : PlexLibraryItem)] "movie" 4000 true).totalItems
          then jsRound
            ((calculatePlexLibraryStats [({} : PlexLibraryItem)] "movie" 4000 true).totalSizeBytes /
              (calculatePlexLibraryStats [({} : PlexLibraryItem)] "movie" 4000 true).totalItems)
          else 0
        avgDurationMs :=
          if 0 < (calculatePlexLibraryStats [({} : PlexLibraryItem)] "movie" 4000 true).totalItems
          then jsRound
            ((calculatePlexLibraryStats [({} : PlexLibraryItem)] "movie" 4000 true).totalDurationMs /
              (calculatePlexLibraryStats [({} : PlexLibraryItem)] "movie" 4000 true).totalItems)
          else 0
        avgBitrateKbps :=
          if 0 < (plexAggregate [({} : PlexLibraryItem)] "movie").itemsWithBitrate then
            jsRound ((plexAggregate [({} : PlexLibraryItem)] "movie").totalBitrate /
              ((plexAggregate [({} : PlexLibraryItem)] "movie").itemsWithBitrate : ℚ))
          else 0
        hdrItemCount := jsRound (((plexAggregate [({} : PlexLibraryItem)] "movie").hdrItemCount : ℚ) *
          ((4000 : ℚ) / (([({} : PlexLibraryItem)]).length : ℚ))) } := by
  have h := (extrapolation_spec [({} : PlexLibraryItem)] [] "movie" 4000).1 (by decide)
  refine ⟨by decide, ?_⟩
  simpa using h

/-- The all-zero `LibraryItemStats` (optional fields present, as zero, only for
show-like libraries). -/
def zeroLibraryItemStats (libraryType : String) : LibraryItemStats :=
  { totalItems := 0
    totalEpisodes := if libraryType = "show" then some 0 else none
    totalSeasons := if libraryType = "show" then some 0 else none
    totalShows := if libraryType = "show" then some 0 else none
    totalSizeBytes := 0
    totalDurationMs := 0
    avgFileSizeBytes := 0
    avgDurationMs := 0
    avgBitrateKbps := 0
    hdrItemCount := 0 }

/-- **C4 (counterexample).** The claim says a fetch that yields zero items
produces a `LibraryItemStats` with *every* field zero.  But a movie-like
library whose count probe reported `10000` items and whose page fetch failed
immediately (zero items, `sampled = true`) gets `totalItems = 10000 ≠ 0`:
`finalTotalItems` falls back to `actualTotalCount` for non-show libraries. -/
theorem emptyFetch_nonzero_totalItems :
    (calculatePlexLibraryStats [] "movie" 10000 true).totalItems = 10000 ∧
    (10000 : ℚ) ≠ 0 := by
  constructor
  · decide
  · norm_num

/-- **C4 (amended).** A library with `totalCount = 0` (which is also what a
count-probe failure produces) yields all-zero stats; a fetch yielding zero
items yields zero for every aggregate field, while `totalItems` equals
`actualTotalCount` for non-show libraries (and `0` for show-like ones); and no
division by zero ever occurs: the fully division-checked calculator never
reports an error and agrees with the unchecked one on all inputs. -/
theorem emptyFetch_zero_guard (items : List PlexLibraryItem) (libraryType : String)
    (actualTotalCount : ℕ) (sampled : Bool) :
    calculatePlexLibraryStats [] libraryType 0 sampled = zeroLibraryItemStats libraryType ∧
    calculatePlexLibraryStats [] libraryType actualTotalCount sampled =
      { zeroLibraryItemStats libraryType with
        totalItems := if libraryType = "show" then 0 else (actualTotalCount : ℚ) } ∧
    calculatePlexLibraryStatsChecked items libraryType actualTotalCount sampled =
      some (calculatePlexLibraryStats items libraryType actualTotalCount sampled) := by
  have hzero : ∀ n : ℕ,
      calculatePlexLibraryStats [] libraryType n sampled =
        { zeroLibraryItemStats libraryType with
          totalItems := if libraryType = "show" then 0 else (n : ℚ) } := by
    intro n
    by_cases hshow : libraryType = "show" <;>
      · rcases Nat.eq_zero_or_pos n with hn | hn
        · subst hn
          simp [calculatePlexLibraryStats, plexAggregate, hshow, zeroLibraryItemStats,
            jsRound_zero]
        · have : (0 : ℚ) < (n : ℚ) := by exact_mod_cast hn
          simp [calculatePlexLibraryStats, plexAggregate, hshow, zeroLibraryItemStats,
            jsRound_zero, this]
  refine ⟨?_, hzero actualTotalCount, ?_⟩
  · have h := hzero 0
    simpa [zeroLibraryItemStats] using h
  · by_cases hE : (sampled && decide (0 < items.length)) = true
    · have hlen : 0 < items.length := by
        simp only [Bool.and_eq_true, decide_eq_true_eq] at hE
        exact hE.2
      have hlenQ : (0 : ℚ) < (items.length : ℚ) := by exact_mod_cast hlen
      simp [calculatePlexLibraryStatsChecked, calculatePlexLibraryStats, hE,
        divChecked_of_pos hlenQ, guardedBind_lt, guardedBind_nat, ite_jsRound_collapse]
    · rw [Bool.not_eq_true] at hE
      simp [calculatePlexLibraryStatsChecked, calculatePlexLibraryStats, hE,
        guardedBind_lt, guardedBind_nat, ite_jsRound_collapse]

/-- Synthetic Plex episodes: 3 distinct show ids (`A`, `B`, `C`) and 5 distinct
season ids (`s1` … `s5`) across 7 episodes. -/
def syntheticEpisodes : List PlexLibraryItem :=
  [{ grandparentRatingKey := some "A", parentRatingKey := some "s1" },
   { grandparentRatingKey := some "A", parentRatingKey := some "s2" },
   { grandparentRatingKey := some "B", parentRatingKey := some "s3" },
   { grandparentRatingKey := some "B", parentRatingKey := some "s3" },
   { grandparentRatingKey := some "C", parentRatingKey := some "s4" },
   { grandparentRatingKey := some "C", parentRatingKey := some "s5" },
   { grandparentRatingKey := some "C", parentRatingKey := some "s5" }]

/-- **C5.** For every collection of a show-like library, `totalItems` equals the
`totalShows` value, and the optional episode/season/show fields are present
exactly when the library is show-like; the synthetic 3-show / 5-season example
with 7 episodes, collected without sampling, yields `totalShows = 3`,
`totalSeasons = 5`, `totalItems = 3`, `totalEpisodes = 7`. -/
theorem showLike_invariants :
    (∀ (items : List PlexLibraryItem) (libraryType : String) (n : ℕ) (sampled : Bool),
      ((calculatePlexLibraryStats items libraryType n sampled).totalShows.isSome ↔
        libraryType = "show") ∧
      ((calculatePlexLibraryStats items libraryType n sampled).totalSeasons.isSome ↔
        libraryType = "show") ∧
      ((calculatePlexLibraryStats items libraryType n sampled).totalEpisodes.isSome ↔
        libraryType = "show") ∧
      (libraryType = "show" →
        (calculatePlexLibraryStats items libraryType n sampled).totalShows =
          some (calculatePlexLibraryStats items libraryType n sampled).totalItems)) ∧
    (calculatePlexLibraryStats syntheticEpisodes "show" 7 false).totalShows = some 3 ∧
    (calculatePlexLibraryStats syntheticEpisodes "show" 7 false).totalSeasons = some 5 ∧
    (calculatePlexLibraryStats syntheticEpisodes "show" 7 false).totalItems = 3 ∧
    (calculatePlexLibraryStats syntheticEpisodes "show" 7 false).totalEpisodes = some 7 := by
  refine ⟨?_, by decide, by decide, by decide, by decide⟩
  intro items libraryType n sampled
  by_cases hshow : libraryType = "show" <;>
    simp [calculatePlexLibraryStats, hshow]

/-- Witness for C5: the show-like `totalItems == totalShows` invariant at a
concrete input. -/
theorem showLike_invariants_witness :
    (calculatePlexLibraryStats syntheticEpisodes "show" 7 false).totalShows =
      some (calculatePlexLibraryStats syntheticEpisodes "show" 7 false).totalItems :=
  (showLike_invariants.1 syntheticEpisodes "show" 7 false).2.2.2 rfl

/-! ## Claim C6 — snapshot idempotence -/

/-- At most one snapshot row per `(serverId, libraryId, snapshotDate)`:
the `library_snapshots_unique` constraint. -/
def SnapDistinct (rows : List SnapshotRow) : Prop :=
  rows.Pairwise fun a b => snapKeyMatches a b = false

def countSnapKey (rows : List SnapshotRow) (sid lid : String) (d : ℕ) : ℕ :=
  rows.countP fun x => x.serverId == sid && x.libraryId == lid && x.snapshotDate == d

lemma snapKeyMatches_refl (r : SnapshotRow) : snapKeyMatches r r = true := by
  simp [snapKeyMatches]

lemma hasSnapKey_insert_mono {rows : List SnapshotRow} {x r : SnapshotRow}
    (h : hasSnapKey rows x = true) : hasSnapKey (insertSnapshotOrIgnore rows r) x = true := by
  unfold insertSnapshotOrIgnore
  split
  · exact h
  · unfold hasSnapKey at h ⊢
    simp only [List.any_append, Bool.or_eq_true]
    exact Or.inl h

lemma hasSnapKey_insert_self (rows : List SnapshotRow) (r : SnapshotRow) :
    hasSnapKey (insertSnapshotOrIgnore rows r) r = true := by
  unfold insertSnapshotOrIgnore
  split
  · assumption
  · unfold hasSnapKey
    simp [snapKeyMatches_refl]

lemma insert_of_hasSnapKey {rows : List SnapshotRow} {r : SnapshotRow}
    (h : hasSnapKey rows r = true) : insertSnapshotOrIgnore rows r = rows := by
  simp [insertSnapshotOrIgnore, h]

lemma foldl_insert_mono {x : SnapshotRow} :
    ∀ (L : List SnapshotRow) (rows : List SnapshotRow), hasSnapKey rows x = true →
      hasSnapKey (L.foldl insertSnapshotOrIgnore rows) x = true
  | [], _, h => h
  | r :: L, rows, h => foldl_insert_mono L _ (hasSnapKey_insert_mono h)

lemma foldl_insert_covers (L : List SnapshotRow) :
    ∀ (rows : List SnapshotRow), ∀ x ∈ L,
      hasSnapKey (L.foldl insertSnapshotOrIgnore rows) x = true := by
  induction L with
  | nil => intro rows x hx; cases hx
  | cons r L ih =>
    intro rows x hx
    rcases List.mem_cons.mp hx with rfl | hx
    · exact foldl_insert_mono L _ (hasSnapKey_insert_self rows x)
    · exact ih _ x hx

lemma foldl_insert_noop (L : List SnapshotRow) (rows : List SnapshotRow)
    (h : ∀ x ∈ L, hasSnapKey rows x = true) :
    L.foldl insertSnapshotOrIgnore rows = rows := by
  induction L with
  | nil => rfl
  | cons r L ih =>
    rw [List.foldl_cons, insert_of_hasSnapKey (h r (by simp))]
    exact ih fun x hx => h x (by simp [hx])

lemma insert_append (rows : List SnapshotRow) (r : SnapshotRow) :
    ∃ t, insertSnapshotOrIgnore rows r = rows ++ t := by
  unfold insertSnapshotOrIgnore
  split
  · exact ⟨[], by simp⟩
  · exact ⟨[r], rfl⟩

lemma foldl_insert_append (L : List SnapshotRow) :
    ∀ rows : List SnapshotRow, ∃ t, L.foldl insertSnapshotOrIgnore rows = rows ++ t := by
  induction L with
  | nil => exact fun rows => ⟨[], by simp⟩
  | cons r L ih =>
    intro rows
    obtain ⟨t1, h1⟩ := insert_append rows r
    obtain ⟨t2, h2⟩ := ih (insertSnapshotOrIgnore rows r)
    exact ⟨t1 ++ t2, by rw [List.foldl_cons, h2, h1, List.append_assoc]⟩

lemma insert_snapDistinct {rows : List SnapshotRow} {r : SnapshotRow}
    (h : SnapDistinct rows) : SnapDistinct (insertSnapshotOrIgnore rows r) := by
  unfold insertSnapshotOrIgnore
  split
  · exact h
  · rename_i hnot
    apply List.pairwise_append.mpr
    refine ⟨h, List.pairwise_singleton _ _, ?_⟩
    intro a ha b hb
    rcases List.mem_singleton.mp hb with rfl
    simp only [hasSnapKey, List.any_eq_true, not_exists, not_and,
      Bool.not_eq_true] at hnot
    exact hnot a ha

lemma foldl_insert_snapDistinct (L : List SnapshotRow) :
    ∀ rows : List SnapshotRow, SnapDistinct rows →
      SnapDistinct (L.foldl insertSnapshotOrIgnore rows) := by
  induction L with
  | nil => exact fun _ h => h
  | cons r L ih => exact fun rows h => ih _ (insert_snapDistinct h)

lemma countSnapKey_le_one {rows : List SnapshotRow} (h : SnapDistinct rows)
    (sid lid : String) (d : ℕ) : countSnapKey rows sid lid d ≤ 1 := by
  induction rows with
  | nil => simp [countSnapKey]
  | cons a rows ih =>
    unfold SnapDistinct at h
    rw [List.pairwise_cons] at h
    by_cases ha : (a.serverId == sid && a.libraryId == lid && a.snapshotDate == d) = true
    · have hz : countSnapKey rows sid lid d = 0 := by
        rw [countSnapKey, List.countP_eq_zero]
        intro x hx
        have hax := h.1 x hx
        simp only [snapKeyMatches, Bool.and_eq_true, beq_iff_eq, Bool.and_eq_false_iff,
          beq_eq_false_iff_ne, ne_eq] at hax ⊢
        simp only [Bool.and_eq_true, beq_iff_eq] at ha
        rintro ⟨⟨hxs, hxl⟩, hxd⟩
        obtain ⟨⟨has, hal⟩, had⟩ := ha
        rcases hax with (hs | hl) | hd
        · exact hs (by rw [has, hxs])
        · exact hl (by rw [hal, hxl])
        · exact hd (by rw [had, hxd])
      rw [countSnapKey, List.countP_cons]
      rw [countSnapKey] at hz
      simp [ha, hz]
    · rw [countSnapKey, List.countP_cons]
      have := ih h.2
      rw [countSnapKey] at this
      simp [ha]
      omega

/-- **C6.** For every server and calendar day, invoking `createDailySnapshot`
any number of times results in exactly one `LibrarySnapshot` row per
`(serverId, libraryId, snapshotDate)` for the server's libraries; a second
invocation on the same day is a no-op, and existing snapshot rows are only ever
appended to, never modified. -/
theorem snapshot_idempotence (db : DB) (sid : String) (today : ℕ)
    (huniq : SnapDistinct db.snapshots) :
    (∀ n : ℕ, (fun d => createDailySnapshotModel d sid today)^[n]
        (createDailySnapshotModel db sid today) = createDailySnapshotModel db sid today) ∧
    (∀ stat ∈ db.stats, stat.serverId = sid →
      countSnapKey (createDailySnapshotModel db sid today).snapshots
        stat.serverId stat.libraryId today = 1) ∧
    (∃ t, (createDailySnapshotModel db sid today).snapshots = db.snapshots ++ t) := by
  obtain ⟨stats, snaps⟩ := db
  have hone :
      createDailySnapshotModel (createDailySnapshotModel ⟨stats, snaps⟩ sid today) sid today =
        createDailySnapshotModel ⟨stats, snaps⟩ sid today := by
    show (⟨stats, _⟩ : DB) = ⟨stats, _⟩
    congr 1
    exact foldl_insert_noop _ _ fun x hx => foldl_insert_covers _ _ x hx
  refine ⟨?_, ?_, foldl_insert_append _ _⟩
  · intro n
    induction n with
    | zero => rfl
    | succ n ih =>
      rw [Function.iterate_succ_apply, hone, ih]
  · intro stat hstat hsid
    set r := snapshotOfStat stat today with hr
    have hmem : r ∈ (stats.filter fun s => s.serverId == sid).map (snapshotOfStat · today) :=
      List.mem_map_of_mem _ (List.mem_filter.mpr ⟨hstat, by simp [hsid]⟩)
    have hkey := foldl_insert_covers _ snaps r hmem
    have hdist := foldl_insert_snapDistinct
      ((stats.filter fun s => s.serverId == sid).map (snapshotOfStat · today)) snaps huniq
    have hle := countSnapKey_le_one hdist stat.serverId stat.libraryId today
    show countSnapKey
      (((stats.filter fun s => s.serverId == sid).map (snapshotOfStat · today)).foldl
        insertSnapshotOrIgnore snaps) stat.serverId stat.libraryId today = 1
    have hpos : 0 < countSnapKey
        (((stats.filter fun s => s.serverId == sid).map (snapshotOfStat · today)).foldl
          insertSnapshotOrIgnore snaps) stat.serverId stat.libraryId today := by
      rw [countSnapKey, List.countP_pos_iff]
      simp only [hasSnapKey, List.any_eq_true] at hkey
      obtain ⟨x, hx, hxk⟩ := hkey
      refine ⟨x, hx, ?_⟩
      simpa [snapKeyMatches, hr, snapshotOfStat] using hxk
    omega

def witnessStatsRow : StatsRow :=
  { serverId := "s1"
    libraryId := "lib1"
    libraryName := "Movies"
    libraryType := "movie"
    totalItems := 10
    totalEpisodes := none
    totalSeasons := none
    totalShows := none
    totalSizeBytes := 100
    totalDurationMs := 1000
    avgFileSizeBytes := some 10
    avgDurationMs := some 100
    avgBitrateKbps := some 5
    hdrItemCount := some 2
    lastUpdatedAt := 1 }

/-- Witness for C6: one library, empty snapshot table. -/
theorem snapshot_idempotence_witness :
    countSnapKey (createDailySnapshotModel ⟨[witnessStatsRow], []⟩ "s1" 7).snapshots
      "s1" "lib1" 7 = 1 :=
  (snapshot_idempotence ⟨[witnessStatsRow], []⟩ "s1" 7 List.Pairwise.nil).2.1
    witnessStatsRow (by simp) rfl

/-! ## Claims C7 and C8 — upsert overwrite, per-library failure isolation -/

/-- At most one current-statistics row per `(serverId, libraryId)`:
the `library_statistics_unique` constraint. -/
def StatsDistinct (rows : List StatsRow) : Prop :=
  rows.Pairwise fun a b => (a.serverId == b.serverId && a.libraryId == b.libraryId) = false

def countStatsKey (rows : List StatsRow) (sid lid : String) : ℕ :=
  rows.countP (statsKeyMatches · sid lid)

lemma bumpRow_serverId (sid : String) (procs : List String) (b : ℕ) (r : StatsRow) :
    (bumpRow sid procs b r).serverId = r.serverId := by
  unfold bumpRow
  split <;> rfl

lemma bumpRow_libraryId (sid : String) (procs : List String) (b : ℕ) (r : StatsRow) :
    (bumpRow sid procs b r).libraryId = r.libraryId := by
  unfold bumpRow
  split <;> rfl

lemma statsKeyMatches_bumpRow (sid' : String) (procs : List String) (b : ℕ)
    (r : StatsRow) (sid lid : String) :
    statsKeyMatches (bumpRow sid' procs b r) sid lid = statsKeyMatches r sid lid := by
  unfold statsKeyMatches
  rw [bumpRow_serverId, bumpRow_libraryId]

lemma countStatsKey_map_bumpRow (rows : List StatsRow) (sid' : String) (procs : List String)
    (b : ℕ) (sid lid : String) :
    countStatsKey (rows.map (bumpRow sid' procs b)) sid lid = countStatsKey rows sid lid := by
  unfold countStatsKey
  rw [List.countP_map]
  apply List.countP_congr
  intro r _
  simp only [Function.comp_apply, statsKeyMatches_bumpRow]

lemma statsDistinct_map_bumpRow {rows : List StatsRow} (sid' : String) (procs : List String)
    (b : ℕ) (h : StatsDistinct rows) : StatsDistinct (rows.map (bumpRow sid' procs b)) := by
  unfold StatsDistinct at h ⊢
  rw [List.pairwise_map]
  refine h.imp ?_
  intro a c hac
  rw [bumpRow_serverId, bumpRow_serverId, bumpRow_libraryId, bumpRow_libraryId]
  exact hac

lemma statsKeyMatches_applyStatsFields (r : StatsRow) (name ltype : String)
    (st : LibraryItemStats) (sid lid : String) :
    statsKeyMatches (applyStatsFields r name ltype st) sid lid = statsKeyMatches r sid lid := rfl

lemma upsert_statsDistinct (rows : List StatsRow) (sid lid name ltype : String)
    (st : LibraryItemStats) (now : ℕ) (h : StatsDistinct rows) :
    StatsDistinct (upsertLibraryStatistics rows sid lid name ltype st now) := by
  unfold upsertLibraryStatistics
  split
  · unfold StatsDistinct at h ⊢
    rw [List.pairwise_map]
    refine h.imp ?_
    intro a c hac
    have ka : ∀ x : StatsRow,
        ((if statsKeyMatches x sid lid then applyStatsFields x name ltype st else x).serverId
            = x.serverId) ∧
        ((if statsKeyMatches x sid lid then applyStatsFields x name ltype st else x).libraryId
            = x.libraryId) := by
      intro x
      split <;> exact ⟨rfl, rfl⟩
    rw [(ka a).1, (ka a).2, (ka c).1, (ka c).2]
    exact hac
  · rename_i hany
    unfold StatsDistinct at h ⊢
    apply List.pairwise_append.mpr
    refine ⟨h, List.pairwise_singleton _ _, ?_⟩
    intro a ha c hc
    rcases List.mem_singleton.mp hc with rfl
    simp only [List.any_eq_true, not_exists, not_and, Bool.not_eq_true] at hany
    exact hany a ha

lemma upsert_count_pos (rows : List StatsRow) (sid lid name ltype : String)
    (st : LibraryItemStats) (now : ℕ) :
    0 < countStatsKey (upsertLibraryStatistics rows sid lid name ltype st now) sid lid := by
  rw [countStatsKey, List.countP_pos_iff]
  unfold upsertLibraryStatistics
  split
  · rename_i hany
    rw [List.any_eq_true] at hany
    obtain ⟨r, hr, hk⟩ := hany
    refine ⟨applyStatsFields r name ltype st, ?_, hk⟩
    exact List.mem_map.mpr ⟨r, hr, by simp [hk]⟩
  · exact ⟨newStatsRow sid lid name ltype st now, by simp, by simp [statsKeyMatches, newStatsRow]⟩

lemma countStatsKey_le_one {rows : List StatsRow} (h : StatsDistinct rows)
    (sid lid : String) : countStatsKey rows sid lid ≤ 1 := by
  induction rows with
  | nil => simp [countStatsKey]
  | cons a rows ih =>
    unfold StatsDistinct at h
    rw [List.pairwise_cons] at h
    by_cases ha : statsKeyMatches a sid lid = true
    · have hz : countStatsKey rows sid lid = 0 := by
        rw [countStatsKey, List.countP_eq_zero]
        intro x hx
        have hax := h.1 x hx
        simp only [statsKeyMatches, Bool.and_eq_true, beq_iff_eq, Bool.and_eq_false_iff,
          beq_eq_false_iff_ne, ne_eq] at hax ⊢
        simp only [statsKeyMatches, Bool.and_eq_true, beq_iff_eq] at ha
        rintro ⟨hxs, hxl⟩
        rcases hax with hs | hl
        · exact hs (by rw [ha.1, hxs])
        · exact hl (by rw [ha.2, hxl])
      rw [countStatsKey, List.countP_cons]
      rw [countStatsKey] at hz
      simp [ha, hz]
    · rw [countStatsKey, List.countP_cons]
      have := ih h.2
      rw [countStatsKey] at this
      simp [ha]
      omega

/-- The full set of data fields written by both the insert and the conflict
branch of the upsert (everything except `lastUpdatedAt`). -/
def holdsStatsFields (r : StatsRow) (name ltype : String) (st : LibraryItemStats) : Prop :=
  r.libraryName = name ∧ r.libraryType = ltype ∧
  r.totalItems = st.totalItems ∧ r.totalEpisodes = st.totalEpisodes ∧
  r.totalSeasons = st.totalSeasons ∧ r.totalShows = st.totalShows ∧
  r.totalSizeBytes = st.totalSizeBytes ∧ r.totalDurationMs = st.totalDurationMs ∧
  r.avgFileSizeBytes = some st.avgFileSizeBytes ∧ r.avgDurationMs = some st.avgDurationMs ∧
  r.avgBitrateKbps = some st.avgBitrateKbps ∧ r.hdrItemCount = some st.hdrItemCount

lemma upsert_values {rows : List StatsRow} {sid lid name ltype : String}
    {st : LibraryItemStats} {now : ℕ} :
    ∀ r ∈ upsertLibraryStatistics rows sid lid name ltype st now,
      statsKeyMatches r sid lid = true → holdsStatsFields r name ltype st := by
  unfold upsertLibraryStatistics
  split
  · intro r hr hk
    obtain ⟨r0, hr0, rfl⟩ := List.mem_map.mp hr
    by_cases h0 : statsKeyMatches r0 sid lid = true
    · rw [if_pos h0]
      exact ⟨rfl, rfl, rfl, rfl, rfl, rfl, rfl, rfl, rfl, rfl, rfl, rfl⟩
    · rw [if_neg h0] at hk
      exact absurd hk h0
  · rename_i hany
    intro r hr hk
    rcases List.mem_append.mp hr with h | h
    · simp only [List.any_eq_true, not_exists, not_and, Bool.not_eq_true] at hany
      rw [hany r h] at hk
      cases hk
    · rcases List.mem_singleton.mp h with rfl
      exact ⟨rfl, rfl, rfl, rfl, rfl, rfl, rfl, rfl, rfl, rfl, rfl, rfl⟩

lemma bump_result {rows : List StatsRow} {sid lid : String} {procs : List String} {b : ℕ}
    (hlid : procs.contains lid = true) :
    ∀ r ∈ rows.map (bumpRow sid procs b), statsKeyMatches r sid lid = true →
      ∃ r0 ∈ rows, statsKeyMatches r0 sid lid = true ∧ r = { r0 with lastUpdatedAt := b } := by
  intro r hr hk
  obtain ⟨r0, hr0, rfl⟩ := List.mem_map.mp hr
  rw [statsKeyMatches_bumpRow] at hk
  have hcond : (r0.serverId == sid && procs.contains r0.libraryId) = true := by
    have hk' := hk
    simp only [statsKeyMatches, Bool.and_eq_true, beq_iff_eq] at hk'
    rw [Bool.and_eq_true, beq_iff_eq, hk'.2]
    exact ⟨hk'.1, hlid⟩
  refine ⟨r0, hr0, hk, ?_⟩
  unfold bumpRow
  rw [if_pos hcond]

/-- A one-library successful run is literally: upsert, then bump that library. -/
lemma singleRun_stats (db : DB) (sid lid name ltype : String) (st : LibraryItemStats)
    (now bump : ℕ) :
    (updateServerLibraryStatsModel db sid [⟨lid, name, ltype, some st⟩] now bump).stats
      = (upsertLibraryStatistics db.stats sid lid name ltype st now).map
          (bumpRow sid [lid] bump) := rfl

/-- **C7.** The current-statistics upsert is keyed on `(serverId, libraryId)`:
running the server update twice for the same library with different stats
leaves exactly one `LibraryStatisticsRecord` row for that key, and that row
holds the second run's values for every data field, with `lastUpdatedAt` bumped
to the second run's batched-update time. -/
theorem upsert_overwrite (db : DB) (sid lid name1 name2 ltype1 ltype2 : String)
    (s1 s2 : LibraryItemStats) (t1 b1 t2 b2 : ℕ)
    (huniq : StatsDistinct db.stats) :
    countStatsKey
        (updateServerLibraryStatsModel
          (updateServerLibraryStatsModel db sid [⟨lid, name1, ltype1, some s1⟩] t1 b1)
          sid [⟨lid, name2, ltype2, some s2⟩] t2 b2).stats sid lid = 1 ∧
    ∀ r ∈ (updateServerLibraryStatsModel
          (updateServerLibraryStatsModel db sid [⟨lid, name1, ltype1, some s1⟩] t1 b1)
          sid [⟨lid, name2, ltype2, some s2⟩] t2 b2).stats,
      statsKeyMatches r sid lid = true →
        holdsStatsFields r name2 ltype2 s2 ∧ r.lastUpdatedAt = b2 := by
  have hd1 : StatsDistinct
      (updateServerLibraryStatsModel db sid [⟨lid, name1, ltype1, some s1⟩] t1 b1).stats := by
    rw [singleRun_stats]
    exact statsDistinct_map_bumpRow _ _ _
      (upsert_statsDistinct db.stats sid lid name1 ltype1 s1 t1 huniq)
  constructor
  · rw [singleRun_stats, countStatsKey_map_bumpRow]
    have hpos := upsert_count_pos
      (updateServerLibraryStatsModel db sid [⟨lid, name1, ltype1, some s1⟩] t1 b1).stats
      sid lid name2 ltype2 s2 t2
    have hle := countStatsKey_le_one
      (upsert_statsDistinct _ sid lid name2 ltype2 s2 t2 hd1) sid lid
    omega
  · intro r hr hk
    rw [singleRun_stats] at hr
    obtain ⟨r0, hr0, hk0, rfl⟩ := bump_result (by simp) r hr hk
    have hv := upsert_values r0 hr0 hk0
    obtain ⟨h1, h2, h3, h4, h5, h6, h7, h8, h9, h10, h11, h12⟩ := hv
    exact ⟨⟨h1, h2, h3, h4, h5, h6, h7, h8, h9, h10, h11, h12⟩, rfl⟩

/-- Witness for C7: two runs on an initially empty table. -/
theorem upsert_overwrite_witness :
    countStatsKey
        (updateServerLibraryStatsModel
          (updateServerLibraryStatsModel ⟨[], []⟩ "s1" [⟨"lib1", "Movies", "movie",
            some (zeroLibraryItemStats "movie")⟩] 1 2)
          "s1" [⟨"lib1", "Films", "movie", some (zeroLibraryItemStats "movie")⟩] 3 4).stats
      "s1" "lib1" = 1 :=
  (upsert_overwrite ⟨[], []⟩ "s1" "lib1" "Movies" "Films" "movie" "movie"
    (zeroLibraryItemStats "movie") (zeroLibraryItemStats "movie") 1 2 3 4
    List.Pairwise.nil).1

lemma foldl_step_filter (sid : String) (now : ℕ) :
    ∀ (libs : List LibraryRun) (acc : List StatsRow × List String),
      libs.foldl (processLibraryStep sid now) acc
        = (libs.filter fun l => l.result.isSome).foldl (processLibraryStep sid now) acc := by
  intro libs
  induction libs with
  | nil => intro acc; rfl
  | cons l libs ih =>
    intro acc
    rcases hres : l.result with _ | st
    · have hstep : processLibraryStep sid now acc l = acc := by
        simp [processLibraryStep, hres]
      rw [List.foldl_cons, hstep, List.filter_cons]
      simp only [hres, Option.isSome_none, Bool.false_eq_true, if_false]
      exact ih acc
    · have hsome : l.result.isSome = true := by simp [hres]
      rw [List.foldl_cons, List.filter_cons]
      simp only [hsome, if_true]
      rw [List.foldl_cons]
      exact ih _

lemma foldl_step_snd (sid : String) (now : ℕ) :
    ∀ (libs : List LibraryRun) (acc : List StatsRow × List String),
      (libs.foldl (processLibraryStep sid now) acc).2
        = acc.2 ++ (libs.filter fun l => l.result.isSome).map (fun l => l.id) := by
  intro libs
  induction libs with
  | nil => intro acc; simp
  | cons l libs ih =>
    intro acc
    rcases hres : l.result with _ | st
    · have hstep : processLibraryStep sid now acc l = acc := by
        simp [processLibraryStep, hres]
      rw [List.foldl_cons, hstep, List.filter_cons]
      simp only [hres, Option.isSome_none, Bool.false_eq_true, if_false]
      exact ih acc
    · have hsome : l.result.isSome = true := by simp [hres]
      rw [List.foldl_cons, List.filter_cons]
      simp only [hsome, if_true, List.map_cons]
      rw [ih _]
      simp [processLibraryStep, hres]

lemma mem_upsert_of_key_ne {rows : List StatsRow} {sid lid name ltype : String}
    {st : LibraryItemStats} {now : ℕ} {r : StatsRow} (hr : r ∈ rows)
    (hk : statsKeyMatches r sid lid = false) :
    r ∈ upsertLibraryStatistics rows sid lid name ltype st now := by
  unfold upsertLibraryStatistics
  split
  · have : (if statsKeyMatches r sid lid then applyStatsFields r name ltype st else r) = r := by
      simp [hk]
    exact this ▸ List.mem_map_of_mem _ hr
  · exact List.mem_append_left _ hr

lemma foldl_step_preserves (sid : String) (now : ℕ) :
    ∀ (libs : List LibraryRun) (acc : List StatsRow × List String) (r : StatsRow),
      r ∈ acc.1 →
      (∀ l ∈ libs, l.result.isSome = true → statsKeyMatches r sid l.id = false) →
      r ∈ (libs.foldl (processLibraryStep sid now) acc).1 := by
  intro libs
  induction libs with
  | nil => intro acc r hr _; exact hr
  | cons l libs ih =>
    intro acc r hr hkeys
    rw [List.foldl_cons]
    rcases hres : l.result with _ | st
    · have hstep : processLibraryStep sid now acc l = acc := by
        simp [processLibraryStep, hres]
      rw [hstep]
      exact ih acc r hr fun l' hl' h' => hkeys l' (by simp [hl']) h'
    · have hk := hkeys l (by simp) (by simp [hres])
      have hstep : processLibraryStep sid now acc l
          = (upsertLibraryStatistics acc.1 sid l.id l.name l.type st now, acc.2 ++ [l.id]) := by
        simp [processLibraryStep, hres]
      rw [hstep]
      exact ih _ r (mem_upsert_of_key_ne hr hk) fun l' hl' h' => hkeys l' (by simp [hl']) h'

lemma bumpRow_of_not_mem {sid : String} {procs : List String} {b : ℕ} {r : StatsRow}
    (h : ¬(r.serverId = sid ∧ r.libraryId ∈ procs)) : bumpRow sid procs b r = r := by
  unfold bumpRow
  rw [if_neg]
  intro hcond
  rw [Bool.and_eq_true, beq_iff_eq] at hcond
  refine h ⟨hcond.1, ?_⟩
  have hc := hcond.2
  simp only [List.contains, List.elem_eq_mem, decide_eq_true_eq] at hc
  exact hc

/-- **C8.** A per-library exception is caught and the library skipped: a server
run behaves exactly as if the failed libraries were absent, the
`processedLibraryIds` are exactly the successful libraries, and a stored row
whose library was not successfully processed survives the run verbatim — in
particular it is excluded from the batched `lastUpdatedAt` bump. -/
theorem perLibrary_failure_isolation (db : DB) (sid : String) (libs : List LibraryRun)
    (now bumpTime : ℕ) :
    updateServerLibraryStatsModel db sid libs now bumpTime
      = updateServerLibraryStatsModel db sid (libs.filter fun l => l.result.isSome)
          now bumpTime ∧
    processedLibraryIds db sid libs now
      = (libs.filter fun l => l.result.isSome).map (fun l => l.id) ∧
    ∀ r ∈ db.stats,
      ¬(r.serverId = sid ∧
          r.libraryId ∈ (libs.filter fun l => l.result.isSome).map (fun l => l.id)) →
      r ∈ (updateServerLibraryStatsModel db sid libs now bumpTime).stats := by
  refine ⟨?_, ?_, ?_⟩
  · unfold updateServerLibraryStatsModel
    rw [foldl_step_filter]
  · unfold processedLibraryIds
    rw [foldl_step_snd]
    rfl
  · intro r hr hnot
    unfold updateServerLibraryStatsModel
    have hkeys : ∀ l ∈ libs, l.result.isSome = true → statsKeyMatches r sid l.id = false := by
      intro l hl hsome
      rw [statsKeyMatches]
      rw [Bool.and_eq_false_iff]
      by_cases hs : r.serverId = sid
      · right
        rw [beq_eq_false_iff_ne]
        intro hlid
        refine hnot ⟨hs, ?_⟩
        rw [hlid]
        exact List.mem_map_of_mem _ (List.mem_filter.mpr ⟨hl, hsome⟩)
      · left
        rwa [beq_eq_false_iff_ne]
    have hmem := foldl_step_preserves sid now libs (db.stats, []) r hr hkeys
    set p := libs.foldl (processLibraryStep sid now) (db.stats, []) with hp
    by_cases hempty : p.2.isEmpty
    · simpa [hempty] using hmem
    · have hnotmem : ¬(r.serverId = sid ∧ r.libraryId ∈ p.2) := by
        rintro ⟨hs, hin⟩
        rw [foldl_step_snd] at hin
        simp only [List.nil_append] at hin
        exact hnot ⟨hs, hin⟩
      have : bumpRow sid p.2 bumpTime r = r := bumpRow_of_not_mem hnotmem
      simp only [hempty, if_false]
      exact this ▸ List.mem_map_of_mem _ hmem

/-- Witness for C8: a failing library leaves an existing row untouched. -/
theorem perLibrary_failure_isolation_witness :
    witnessStatsRow ∈ (updateServerLibraryStatsModel ⟨[witnessStatsRow], []⟩ "s1"
      [⟨"libX", "Broken", "movie", none⟩] 3 4).stats :=
  (perLibrary_failure_isolation ⟨[witnessStatsRow], []⟩ "s1"
    [⟨"libX", "Broken", "movie", none⟩] 3 4).2.2 witnessStatsRow (by simp) (by simp)

/-! ## Claims C9 and C10 — reader on an empty store, uncapped HDR percentage -/

/-- **C9 (counterexample).** With no stored records, `getLibraryStatistics`
returns `current.lastUpdated = null` (`lastUpdated?.toISOString() ?? null`), so
the returned shape does contain a null field, contrary to the claim that no
field anywhere is null or undefined. -/
theorem emptyStore_lastUpdated_null :
    (getLibraryStatisticsModel ⟨[], []⟩ none 90 100).current.lastUpdated = none := rfl

/-- **C9 (amended).** When no `LibraryStatisticsRecord` rows and no
`LibrarySnapshot` rows exist, `getCurrentAndHistory` returns a zeroed current
block (`totalSize`, `totalItems`, `totalHours` all `0`, empty `libraries`) and
an empty history list — but `current.lastUpdated` is null (not a timestamp);
every other field of the shape is a defined zero or empty value. -/
theorem emptyStore_zeroed (serverId : Option String) (daysOfHistory today : ℕ) :
    getLibraryStatisticsModel ⟨[], []⟩ serverId daysOfHistory today =
      { current :=
          { totalSize := 0
            totalItems := 0
            totalHours := 0
            lastUpdated := none
            libraries := [] }
        historical := [] } := by
  have hfilter : ∀ (l : List StatsRow), l = [] →
      l.filter (fun s =>
        match serverId with
        | some sid => s.serverId == sid
        | none => true) = [] := by
    rintro _ rfl
    rfl
  unfold getLibraryStatisticsModel
  simp [hfilter, sortListBy, groupSnapshotsByDate]

/-- A video stream flagged HDR by the Plex heuristic (bt2020 primaries). -/
def hdrStream : PlexStream := { streamType := some 1, colorPrimaries := some "bt2020" }

def hdrPart : PlexPart := { size := some 1000000, Stream := some [hdrStream] }

/-- One HDR episode of show `show1`, season `sea1`. -/
def hdrEpisode : PlexLibraryItem :=
  { grandparentRatingKey := some "show1"
    parentRatingKey := some "sea1"
    Media := some [{ Part := some [hdrPart] }] }

/-- Two HDR episodes of one show, one season. -/
def hdrShowItems : List PlexLibraryItem := [hdrEpisode, hdrEpisode]

/-- **C10.** The reader computes each library's `hdrPercentage` as
`hdrItemCount / totalItems * 100` with no cap, while for a show-like library
`hdrItemCount` counts HDR episodes but `totalItems` counts shows: collecting a
show library of 2 HDR episodes belonging to 1 show, persisting it, and reading
it back yields `hdrPercentage = 200 > 100`. -/
theorem hdrPercentage_uncapped :
    (∀ stat : StatsRow,
      (mediaLibraryStatsOfRow stat).fileStats.hdrPercentage
        = if 0 < stat.totalItems then stat.hdrItemCount.getD 0 / stat.totalItems * 100 else 0) ∧
    ((getLibraryStatisticsModel
        (updateServerLibraryStatsModel ⟨[], []⟩ "srv"
          [⟨"lib1", "TV", "show", some (calculatePlexLibraryStats hdrShowItems "show" 2 false)⟩]
          5 6)
        none 90 10).current.libraries.map fun l => l.fileStats.hdrPercentage) = [200] ∧
    (100 : ℚ) < 200 := by
  have h1 : ¬(("show1" : String) = "") := by decide
  have h2 : ¬(("sea1" : String) = "") := by decide
  have hstats : calculatePlexLibraryStats hdrShowItems "show" 2 false =
      { totalItems := 1, totalEpisodes := some 2, totalSeasons := some 1, totalShows := some 1,
        totalSizeBytes := 2000000, totalDurationMs := 0, avgFileSizeBytes := 2000000,
        avgDurationMs := 0, avgBitrateKbps := 0, hdrItemCount := 2 } := by
    norm_num [calculatePlexLibraryStats, plexAggregate, plexFoldItem, hdrShowItems, hdrEpisode,
      hdrPart, hdrStream, truthyNum, truthyStr, plexStreamIsHdr, plexCodecHevc, jsRound,
      h1, h2, Finset.card_insert_of_mem, Finset.insert_nonempty]
  refine ⟨fun stat => rfl, ?_, by norm_num⟩
  rw [hstats]
  norm_num [updateServerLibraryStatsModel, processLibraryStep, upsertLibraryStatistics,
    statsKeyMatches, newStatsRow, bumpRow, getLibraryStatisticsModel, mediaLibraryStatsOfRow,
    sortListBy, groupSnapshotsByDate, List.elem_eq_mem]

end Tracearr
